import Mathlib

/-
Verification of the Sensor Reading Acquisition & Conversion Engine of the
homebridge-purpleair-sensor plugin, embedded from src/src/accessory.ts.

The engine polls a PurpleAir sensor (cloud API or local device endpoint),
normalizes the payload into a canonical SensorReading, and tracks freshness.
Network I/O and the normalizer (parsePurpleAirJson, which lives in a file not
present in the sources) are modelled as explicit parameters: a fetch outcome
value and a parse function, so that update becomes a pure state-transition
function on the engine state (Option SensorReading).
-/

namespace PurpleAir

/-- Canonical sensor reading produced by one successful fetch+normalize cycle
(fields as used by accessory.ts and described by the data model). Optional
temperature and voc encode the JS fields that may be undefined. -/
structure SensorReading where
  updateTimeMs : Int
  pm25 : ℚ
  aqi : ℚ
  airQualityHomekitReading : ℚ
  temperature : Option ℚ
  humidity : ℚ
  voc : Option ℚ
  deriving DecidableEq

/-- Engine configuration, from the constructor of PurpleAirSensor
(accessory.ts lines 53-74). Optional fields encode JS undefined. -/
structure EngineConfig where
  sensor : String
  key : Option String
  apiReadKey : Option String
  localIPAddress : Option String
  averages : String
  conversion : String
  updateIntervalMs : Int
  aqiInsteadOfDensity : Bool
  deriving DecidableEq

/-- MIN_UPDATE_INTERVAL_MS = 30 * 1000 (accessory.ts line 30). -/
def MIN_UPDATE_INTERVAL_MS : Int := 30 * 1000

/-- DEFAULT_UPDATE_INTERVAL_SECS = 300 (accessory.ts line 27). -/
def DEFAULT_UPDATE_INTERVAL_SECS : Int := 300

/-- The HTTP request that update() issues, as built in accessory.ts lines
130-143 and 156-160: the url, whether the local sensor endpoint is used,
the optional X-API-Key header value, and the optional read_key query
parameter value (axios drops a param whose value is undefined, so an absent
key yields no parameter). -/
structure FetchRequest where
  url : String
  usesLocalSensor : Bool
  apiKeyHeader : Option String
  readKeyParam : Option String
  deriving DecidableEq

/-- Request construction from update() (accessory.ts lines 130-143, 156-160).
Note the request_config with params read_key: this.key is built
unconditionally, for both the local and the cloud branch; only the
X-API-Key header is restricted to the cloud branch. -/
def buildRequest (cfg : EngineConfig) : FetchRequest :=
  match cfg.localIPAddress with
  | some ip =>
      { url := "http://" ++ ip ++ "/json"
        usesLocalSensor := true
        apiKeyHeader := none
        readKeyParam := cfg.key }
  | none =>
      { url := "https://api.purpleair.com/v1/sensors" ++ "/" ++ cfg.sensor
        usesLocalSensor := false
        apiKeyHeader := cfg.apiReadKey
        readKeyParam := cfg.key }

/-- Raw response payload of a successful GET. hasSensorEnvelope models
whether resp.data.sensor is defined (the cloud envelope check at
accessory.ts line 164); raw stands for the rest of the JSON body. -/
structure RawPayload where
  hasSensorEnvelope : Bool
  raw : String
  deriving DecidableEq

/-- Outcome of the network GET in update(): a connection-level failure,
a non-success HTTP status (axios throws an AxiosError carrying the
response body), or a successful response with a payload. -/
inductive FetchOutcome where
  | networkError (detail : String)
  | httpError (status : Nat) (body : String)
  | ok (payload : RawPayload)
  deriving DecidableEq

/-- Error taxonomy of a failed poll attempt (spec section 7): the three
FetchError kinds plus ParseError, distinguished in update() by which
control path raised the failure. -/
inductive ErrKind where
  | network
  | httpStatus
  | missingSensor
  | parseError
  deriving DecidableEq

/-- HomeKit characteristics pushed by updateHomeKit
(accessory.ts lines 207-224). -/
inductive Characteristic where
  | airQuality
  | pm25Density
  | currentTemperature
  | currentRelativeHumidity
  | vocDensity
  deriving DecidableEq

/-- updateHomeKit (accessory.ts lines 207-224) as the list of
characteristic pushes it performs, in program order. A JS truthiness test
guards the temperature and voc pushes: a present value equal to 0 is falsy
and is not pushed. -/
def updateHomeKit : Option SensorReading → Bool → List (Characteristic × ℚ)
  | none, _ => []
  | some r, aqiInsteadOfDensity =>
      [(Characteristic.airQuality, r.airQualityHomekitReading),
       (Characteristic.pm25Density, if aqiInsteadOfDensity then r.aqi else r.pm25)]
      ++ (match r.temperature with
          | some t => if t = 0 then [] else [(Characteristic.currentTemperature, t)]
          | none => [])
      ++ [(Characteristic.currentRelativeHumidity, r.humidity)]
      ++ (match r.voc with
          | some v => if v = 0 then [] else [(Characteristic.vocDensity, v)]
          | none => [])

/-- The error log line of the catch block in update()
(accessory.ts lines 172-176). -/
def errMsg (url detail : String) : String :=
  "Error fetching " ++ url ++ ": " ++ detail

/-- The message of the error thrown when a cloud response has no sensor
record (accessory.ts line 165); an absent key prints as undefined in the
JS template string. -/
def missingSensorMsg (cfg : EngineConfig) : String :=
  "No sensor found with ID " ++ cfg.sensor ++ " and API key " ++
    (match cfg.key with | some k => k | none => "undefined")

/-- Observable outcome of one update() invocation: the engine state after
the call, whether a fetch was issued, whether the rate guard skipped the
attempt, whether updateHomeKit was invoked and with which pushes, the
error log line if any, and the failure kind if any. -/
structure UpdateResult where
  newState : Option SensorReading
  didFetch : Bool
  skipped : Bool
  notifiedHomeKit : Bool
  pushes : List (Characteristic × ℚ)
  loggedError : Option String
  errorKind : Option ErrKind
  deriving DecidableEq

/-- The try/catch body of update() (accessory.ts lines 155-179), reached
once the rate guard has not skipped. parse stands for parsePurpleAirJson
(its source file is not in the repository snapshot); a thrown parse error
is caught by the same catch block as fetch errors. -/
def fetchPhase (cfg : EngineConfig) (fetchOutcome : FetchOutcome)
    (parse : RawPayload → Except String SensorReading) : UpdateResult :=
  let req := buildRequest cfg
  match fetchOutcome with
  | FetchOutcome.networkError d =>
      { newState := none, didFetch := true, skipped := false, notifiedHomeKit := true,
        pushes := updateHomeKit none cfg.aqiInsteadOfDensity,
        loggedError := some (errMsg req.url d),
        errorKind := some ErrKind.network }
  | FetchOutcome.httpError _ body =>
      { newState := none, didFetch := true, skipped := false, notifiedHomeKit := true,
        pushes := updateHomeKit none cfg.aqiInsteadOfDensity,
        loggedError := some (errMsg req.url body),
        errorKind := some ErrKind.httpStatus }
  | FetchOutcome.ok payload =>
      if !req.usesLocalSensor && !payload.hasSensorEnvelope then
        { newState := none, didFetch := true, skipped := false, notifiedHomeKit := true,
          pushes := updateHomeKit none cfg.aqiInsteadOfDensity,
          loggedError := some (errMsg req.url ("Error: " ++ missingSensorMsg cfg)),
          errorKind := some ErrKind.missingSensor }
      else
        match parse payload with
        | Except.ok reading =>
            { newState := some reading, didFetch := true, skipped := false,
              notifiedHomeKit := true,
              pushes := updateHomeKit (some reading) cfg.aqiInsteadOfDensity,
              loggedError := none, errorKind := none }
        | Except.error e =>
            { newState := none, didFetch := true, skipped := false, notifiedHomeKit := true,
              pushes := updateHomeKit none cfg.aqiInsteadOfDensity,
              loggedError := some (errMsg req.url e),
              errorKind := some ErrKind.parseError }

/-- update() (accessory.ts lines 129-180) as a pure state transition. The
rate guard (line 150) returns early, with no fetch and no state change,
when a last reading exists and is younger than MIN_UPDATE_INTERVAL_MS. -/
def update (cfg : EngineConfig) (lastReading : Option SensorReading) (now : Int)
    (fetchOutcome : FetchOutcome)
    (parse : RawPayload → Except String SensorReading) : UpdateResult :=
  match lastReading with
  | some r =>
      if r.updateTimeMs > now - MIN_UPDATE_INTERVAL_MS then
        { newState := some r, didFetch := false, skipped := true, notifiedHomeKit := false,
          pushes := [], loggedError := none, errorKind := none }
      else fetchPhase cfg fetchOutcome parse
  | none => fetchPhase cfg fetchOutcome parse

/-- The recurring setInterval timer (accessory.ts lines 114-116): each tick
invokes update on the state left by the previous tick; every tick is
processed, whatever the previous outcome was. -/
def runSchedule (cfg : EngineConfig) :
    Option SensorReading →
    List (Int × FetchOutcome × (RawPayload → Except String SensorReading)) →
    List UpdateResult
  | _, [] => []
  | state, (now, fo, parse) :: rest =>
      let r := update cfg state now fo parse
      r :: runSchedule cfg r.newState rest

/-- The lastReadingActive getter (accessory.ts lines 203-205). -/
def lastReadingActive (lastReading : Option SensorReading)
    (now updateIntervalMs : Int) : Bool :=
  match lastReading with
  | some r => decide (r.updateTimeMs > now - updateIntervalMs)
  | none => false

/-- Observable outcome of a StatusActive characteristic GET: whether the
handler invoked update(), and the boolean it answered with. -/
structure StatusGetResult where
  didUpdate : Bool
  answer : Bool
  deriving DecidableEq

/-- The StatusActive GET handler registered in the constructor
(accessory.ts lines 79-87): only when a last reading exists does it call
update() and answer lastReadingActive; otherwise it answers false without
calling update(). update() is async, so the answer is computed from the
pre-handler state in either case. -/
def statusActiveGet (lastReading : Option SensorReading)
    (now updateIntervalMs : Int) : StatusGetResult :=
  match lastReading with
  | some _ =>
      { didUpdate := true
        answer := lastReadingActive lastReading now updateIntervalMs }
  | none => { didUpdate := false, answer := false }

/-- One linear interpolation step of the AQI breakpoint mapping:
aqi = ((aqiHigh - aqiLow) / (concHigh - concLow)) * (pm25 - concLow) + aqiLow. -/
def aqiLinear (p concLow concHigh aqiLow aqiHigh : ℚ) : ℚ :=
  (aqiHigh - aqiLow) / (concHigh - concLow) * (p - concLow) + aqiLow

/-- Modelled from the spec: densityToAqi lives in SensorReading.ts, which is
not in the repository snapshot. Per spec section 4.1 it applies the
EPA-style piecewise-linear PM2.5 breakpoint table, choosing the bracket
containing pm25; values below the lowest bracket floor to the lowest
bracket formula, and values above the top bracket extrapolate with the top
bracket slope. The standard table brackets
(concLow, concHigh, aqiLow, aqiHigh) are used, matching the spec section 8
anchor point of about 51 at 12.3. -/
def densityToAqi (p : ℚ) : ℚ :=
  if p ≤ 12 then aqiLinear p 0 12 0 50
  else if p ≤ 35.4 then aqiLinear p 12.1 35.4 51 100
  else if p ≤ 55.4 then aqiLinear p 35.5 55.4 101 150
  else if p ≤ 150.4 then aqiLinear p 55.5 150.4 151 200
  else if p ≤ 250.4 then aqiLinear p 150.5 250.4 201 300
  else if p ≤ 350.4 then aqiLinear p 250.5 350.4 301 400
  else aqiLinear p 350.5 500.4 401 500

/-- Lookup the value pushed to a characteristic, first push wins. -/
def lookupPush (c : Characteristic) : List (Characteristic × ℚ) → Option ℚ
  | [] => none
  | (cv, v) :: rest => if cv = c then some v else lookupPush c rest

/-- The pushes other than PM2_5Density. -/
def nonDensityPushes (l : List (Characteristic × ℚ)) : List (Characteristic × ℚ) :=
  l.filter (fun pv => decide (pv.1 ≠ Characteristic.pm25Density))

/-- A failing update never returns the skip result, so it runs the
try/catch body. -/
theorem update_not_skipped (cfg : EngineConfig) (s : Option SensorReading)
    (now : Int) (fo : FetchOutcome) (parse : RawPayload → Except String SensorReading)
    (h : (update cfg s now fo parse).skipped = false) :
    update cfg s now fo parse = fetchPhase cfg fo parse := by
  cases s with
  | none => rfl
  | some r =>
      by_cases hg : r.updateTimeMs > now - MIN_UPDATE_INTERVAL_MS
      · exfalso
        simp only [update, if_pos hg] at h
        exact Bool.noConfusion h
      · simp only [update, if_neg hg]

/-- The try/catch body never reports a skip. -/
theorem fetchPhase_skipped_false (cfg : EngineConfig) (fo : FetchOutcome)
    (parse : RawPayload → Except String SensorReading) :
    (fetchPhase cfg fo parse).skipped = false := by
  cases fo with
  | networkError d => rfl
  | httpError s b => rfl
  | ok p =>
      simp only [fetchPhase]
      split
      · rfl
      · cases parse p <;> rfl

/-- Whether update() skips depends only on the state and the clock, not on
the fetch outcome or the normalizer. -/
theorem update_skipped_eq (cfg : EngineConfig) (s : Option SensorReading) (now : Int)
    (fo : FetchOutcome) (parse : RawPayload → Except String SensorReading) :
    (update cfg s now fo parse).skipped =
      (match s with
       | some r => decide (r.updateTimeMs > now - MIN_UPDATE_INTERVAL_MS)
       | none => false) := by
  cases s with
  | none => exact fetchPhase_skipped_false cfg fo parse
  | some r =>
      by_cases hg : r.updateTimeMs > now - MIN_UPDATE_INTERVAL_MS
      · simp only [update, if_pos hg]
        simp [hg]
      · simp only [update, if_neg hg]
        rw [fetchPhase_skipped_false]
        simp [hg]

/-- A cloud-configured update() whose successful response lacks the sensor
envelope takes the missing-sensor failure branch of the try/catch body. -/
theorem fetchPhase_missing_env (cfg : EngineConfig) (payload : RawPayload)
    (parse : RawPayload → Except String SensorReading)
    (hip : cfg.localIPAddress = none)
    (henv : payload.hasSensorEnvelope = false) :
    fetchPhase cfg (FetchOutcome.ok payload) parse =
      { newState := none, didFetch := true, skipped := false, notifiedHomeKit := true,
        pushes := [],
        loggedError := some (errMsg (buildRequest cfg).url
          ("Error: " ++ missingSensorMsg cfg)),
        errorKind := some ErrKind.missingSensor } := by
  have hreq : (buildRequest cfg).usesLocalSensor = false := by
    simp only [buildRequest, hip]
  simp only [fetchPhase, hreq, henv, Bool.not_false, Bool.and_self, if_true]
  rfl

/-- C1: with a present lastReading, the freshness query lastReadingActive
returns true iff now - lastReading.updateTimeMs < updateIntervalMs; with an
absent lastReading it returns false. -/
theorem lastReadingActive_spec :
    (∀ (r : SensorReading) (now updateIntervalMs : Int),
      lastReadingActive (some r) now updateIntervalMs = true ↔
        now - r.updateTimeMs < updateIntervalMs)
    ∧ ∀ (now updateIntervalMs : Int),
        lastReadingActive none now updateIntervalMs = false := by
  constructor
  · intro r now updateIntervalMs
    simp only [lastReadingActive, decide_eq_true_eq]
    omega
  · intro now updateIntervalMs
    rfl

/-- C1 witness: a concrete reading 100 ms old is active at interval 300000
and a concrete absent state is inactive. -/
theorem lastReadingActive_spec_witness :
    lastReadingActive (some ⟨1000, 0, 0, 0, none, 0, none⟩) 1100 300000 = true
    ∧ lastReadingActive none 1100 300000 = false := by
  refine ⟨?_, lastReadingActive_spec.2 1100 300000⟩
  exact (lastReadingActive_spec.1 ⟨1000, 0, 0, 0, none, 0, none⟩ 1100 300000).mpr
    (by decide)

/-- C2: the minimum spacing constant is the fixed 30000 ms, and an update()
at time now with a lastReading younger than it skips the attempt entirely:
no fetch, no notification, no log, and the state is unchanged. -/
theorem update_rate_guard_skips :
    MIN_UPDATE_INTERVAL_MS = 30000
    ∧ ∀ (cfg : EngineConfig) (r : SensorReading) (now : Int) (fo : FetchOutcome)
        (parse : RawPayload → Except String SensorReading),
        now - r.updateTimeMs < MIN_UPDATE_INTERVAL_MS →
        update cfg (some r) now fo parse =
          { newState := some r, didFetch := false, skipped := true,
            notifiedHomeKit := false, pushes := [], loggedError := none,
            errorKind := none } := by
  refine ⟨rfl, ?_⟩
  intro cfg r now fo parse h
  have hg : r.updateTimeMs > now - MIN_UPDATE_INTERVAL_MS := by omega
  simp only [update, if_pos hg]

/-- C2 witness: a reading 1000 ms old makes a concrete update() skip with
the state unchanged. -/
theorem update_rate_guard_skips_witness :
    (1500 : Int) - (500 : Int) < MIN_UPDATE_INTERVAL_MS
    ∧ update ⟨"12345", none, none, none, "", "", 300000, false⟩
        (some ⟨500, 0, 0, 0, none, 0, none⟩) 1500
        (FetchOutcome.networkError "refused") (fun _ => Except.error "parse") =
        { newState := some ⟨500, 0, 0, 0, none, 0, none⟩, didFetch := false,
          skipped := true, notifiedHomeKit := false, pushes := [],
          loggedError := none, errorKind := none } :=
  ⟨by decide, update_rate_guard_skips.2 ⟨"12345", none, none, none, "", "", 300000, false⟩
    ⟨500, 0, 0, 0, none, 0, none⟩ 1500
    (FetchOutcome.networkError "refused") (fun _ => Except.error "parse")
    (by decide)⟩

/-- C9: when lastReading is absent, the rate guard never applies: every
update() issues a fetch, whatever the time now and the outcome. -/
theorem update_absent_always_fetches :
    ∀ (cfg : EngineConfig) (now : Int) (fo : FetchOutcome)
      (parse : RawPayload → Except String SensorReading),
      (update cfg none now fo parse).didFetch = true
      ∧ (update cfg none now fo parse).skipped = false := by
  intro cfg now fo parse
  show (fetchPhase cfg fo parse).didFetch = true ∧ (fetchPhase cfg fo parse).skipped = false
  cases fo with
  | networkError d => exact ⟨rfl, rfl⟩
  | httpError s body => exact ⟨rfl, rfl⟩
  | ok payload =>
      simp only [fetchPhase]
      split
      · exact ⟨rfl, rfl⟩
      · cases parse payload <;> exact ⟨rfl, rfl⟩

/-- C3: a poll attempt that is not skipped and whose fetch or normalization
fails clears lastReading to absent, logs Error fetching url: detail, and
calls updateHomeKit with the cleared state (so no characteristic push is
made); and the recurring schedule processes every tick, whatever the
outcomes, so a failure never halts the timer. -/
theorem update_failure_handling :
    (∀ (cfg : EngineConfig) (s : Option SensorReading) (now : Int) (d : String)
       (parse : RawPayload → Except String SensorReading),
       (update cfg s now (FetchOutcome.networkError d) parse).skipped = false →
       update cfg s now (FetchOutcome.networkError d) parse =
         { newState := none, didFetch := true, skipped := false, notifiedHomeKit := true,
           pushes := [], loggedError := some (errMsg (buildRequest cfg).url d),
           errorKind := some ErrKind.network })
    ∧ (∀ (cfg : EngineConfig) (s : Option SensorReading) (now : Int) (status : Nat)
         (body : String) (parse : RawPayload → Except String SensorReading),
       (update cfg s now (FetchOutcome.httpError status body) parse).skipped = false →
       update cfg s now (FetchOutcome.httpError status body) parse =
         { newState := none, didFetch := true, skipped := false, notifiedHomeKit := true,
           pushes := [], loggedError := some (errMsg (buildRequest cfg).url body),
           errorKind := some ErrKind.httpStatus })
    ∧ (∀ (cfg : EngineConfig) (s : Option SensorReading) (now : Int) (payload : RawPayload)
         (parse : RawPayload → Except String SensorReading) (e : String),
       (update cfg s now (FetchOutcome.ok payload) parse).skipped = false →
       ((buildRequest cfg).usesLocalSensor = true ∨ payload.hasSensorEnvelope = true) →
       parse payload = Except.error e →
       update cfg s now (FetchOutcome.ok payload) parse =
         { newState := none, didFetch := true, skipped := false, notifiedHomeKit := true,
           pushes := [], loggedError := some (errMsg (buildRequest cfg).url e),
           errorKind := some ErrKind.parseError })
    ∧ (∀ (cfg : EngineConfig) (s : Option SensorReading)
         (events : List (Int × FetchOutcome × (RawPayload → Except String SensorReading))),
       (runSchedule cfg s events).length = events.length) := by
  refine ⟨?_, ?_, ?_, ?_⟩
  · intro cfg s now d parse h
    rw [update_not_skipped cfg s now _ parse h]
    rfl
  · intro cfg s now status body parse h
    rw [update_not_skipped cfg s now _ parse h]
    rfl
  · intro cfg s now payload parse e h hc hp
    rw [update_not_skipped cfg s now _ parse h]
    have hcond : (!(buildRequest cfg).usesLocalSensor && !payload.hasSensorEnvelope) = false := by
      rcases hc with h1 | h1 <;> simp [h1]
    simp only [fetchPhase, hcond, Bool.false_eq_true, if_false, hp, updateHomeKit]
  · intro cfg s events
    induction events generalizing s with
    | nil => rfl
    | cons e rest ih =>
        obtain ⟨now, fo, parse⟩ := e
        simp only [runSchedule, List.length_cons, ih]

/-- C3 witness: a concrete network failure on the empty state clears the
state, notifies with no pushes, and logs the url with the error detail. -/
theorem update_failure_handling_witness :
    update ⟨"12345", none, none, none, "", "", 300000, false⟩ none 0
        (FetchOutcome.networkError "connect ECONNREFUSED")
        (fun _ => Except.error "nope") =
      { newState := none, didFetch := true, skipped := false, notifiedHomeKit := true,
        pushes := [],
        loggedError := some (errMsg
          (buildRequest ⟨"12345", none, none, none, "", "", 300000, false⟩).url
          "connect ECONNREFUSED"),
        errorKind := some ErrKind.network } :=
  update_failure_handling.1 ⟨"12345", none, none, none, "", "", 300000, false⟩ none 0
    "connect ECONNREFUSED" (fun _ => Except.error "nope") rfl

/-- C5: a non-skipped cloud-source update() whose response succeeds but has
no sensor envelope fails with the missing-sensor kind (not the parse-error
kind), clears lastReading, and does so before any normalization: the whole
result is independent of the normalizer; a local-source update() never
produces the missing-sensor kind. -/
theorem update_missing_sensor_spec :
    (∀ (cfg : EngineConfig) (s : Option SensorReading) (now : Int) (payload : RawPayload)
       (parse : RawPayload → Except String SensorReading),
       cfg.localIPAddress = none →
       payload.hasSensorEnvelope = false →
       (update cfg s now (FetchOutcome.ok payload) parse).skipped = false →
       (update cfg s now (FetchOutcome.ok payload) parse).errorKind
           = some ErrKind.missingSensor
       ∧ (update cfg s now (FetchOutcome.ok payload) parse).errorKind
           ≠ some ErrKind.parseError
       ∧ (update cfg s now (FetchOutcome.ok payload) parse).newState = none
       ∧ ∀ parse2 : RawPayload → Except String SensorReading,
           update cfg s now (FetchOutcome.ok payload) parse2 =
             update cfg s now (FetchOutcome.ok payload) parse)
    ∧ (∀ (cfg : EngineConfig) (s : Option SensorReading) (now : Int) (payload : RawPayload)
         (parse : RawPayload → Except String SensorReading) (ip : String),
       cfg.localIPAddress = some ip →
       (update cfg s now (FetchOutcome.ok payload) parse).errorKind
         ≠ some ErrKind.missingSensor) := by
  constructor
  · intro cfg s now payload parse hip henv h
    have hu := update_not_skipped cfg s now _ parse h
    refine ⟨?_, ?_, ?_, ?_⟩
    · rw [hu, fetchPhase_missing_env cfg payload parse hip henv]
    · rw [hu, fetchPhase_missing_env cfg payload parse hip henv]
      simp
    · rw [hu, fetchPhase_missing_env cfg payload parse hip henv]
    · intro parse2
      have h2 : (update cfg s now (FetchOutcome.ok payload) parse2).skipped = false := by
        rw [update_skipped_eq]
        rw [update_skipped_eq] at h
        exact h
      rw [update_not_skipped cfg s now _ parse2 h2, hu,
        fetchPhase_missing_env cfg payload parse hip henv,
        fetchPhase_missing_env cfg payload parse2 hip henv]
  · intro cfg s now payload parse ip hip
    have hreq : (buildRequest cfg).usesLocalSensor = true := by
      simp only [buildRequest, hip]
    have hfp : (fetchPhase cfg (FetchOutcome.ok payload) parse).errorKind
        ≠ some ErrKind.missingSensor := by
      simp only [fetchPhase, hreq, Bool.not_true, Bool.false_and, Bool.false_eq_true,
        if_false]
      cases parse payload <;> simp
    cases s with
    | none => exact hfp
    | some r =>
        by_cases hg : r.updateTimeMs > now - MIN_UPDATE_INTERVAL_MS
        · simp only [update, if_pos hg]
          simp
        · simp only [update, if_neg hg]
          exact hfp

/-- C5 witness: a concrete cloud config with an envelope-less payload fails
with the missing-sensor kind, clears the state, and ignores a normalizer
that would have succeeded. -/
theorem update_missing_sensor_spec_witness :
    (update ⟨"12345", some "k", none, none, "", "", 300000, false⟩ none 7
        (FetchOutcome.ok ⟨false, "noise"⟩)
        (fun _ => Except.error "nope")).errorKind = some ErrKind.missingSensor
    ∧ (update ⟨"12345", some "k", none, none, "", "", 300000, false⟩ none 7
        (FetchOutcome.ok ⟨false, "noise"⟩)
        (fun _ => Except.ok ⟨7, 1, 1, 1, none, 50, none⟩)) =
      (update ⟨"12345", some "k", none, none, "", "", 300000, false⟩ none 7
        (FetchOutcome.ok ⟨false, "noise"⟩)
        (fun _ => Except.error "nope")) :=
  ⟨(update_missing_sensor_spec.1 ⟨"12345", some "k", none, none, "", "", 300000, false⟩
      none 7 ⟨false, "noise"⟩ (fun _ => Except.error "nope") rfl rfl rfl).1,
   (update_missing_sensor_spec.1 ⟨"12345", some "k", none, none, "", "", 300000, false⟩
      none 7 ⟨false, "noise"⟩ (fun _ => Except.error "nope") rfl rfl rfl).2.2.2
      (fun _ => Except.ok ⟨7, 1, 1, 1, none, 50, none⟩)⟩

/-- The request shape does not depend on the reporting preference flag. -/
theorem buildRequest_flag_irrel (cfg : EngineConfig) (b : Bool) :
    buildRequest { cfg with aqiInsteadOfDensity := b } = buildRequest cfg := by
  cases hip : cfg.localIPAddress <;> simp [buildRequest, hip]

/-- C4 counterexample: with a local IP address configured and a read key
present, the request built by update() still carries the read_key query
parameter (the params object is built unconditionally at accessory.ts
line 156), contradicting the claim that a local fetch carries no read-key
parameter. -/
theorem buildRequest_local_counterexample :
    (buildRequest ⟨"12345", some "mykey", some "apikey", some "192.168.1.5",
        "", "", 300000, false⟩).usesLocalSensor = true
    ∧ ¬ (buildRequest ⟨"12345", some "mykey", some "apikey", some "192.168.1.5",
        "", "", 300000, false⟩).readKeyParam = none :=
  ⟨rfl, fun h => Option.noConfusion h⟩

/-- C4 amended: with a local IP address the fetch is a GET on the local
JSON endpoint with no API key header, but the read key is still attached
as a query parameter when present; without one the fetch targets the cloud
path containing the sensor id, with the API key as header when present and
the read key as query parameter when present. -/
theorem buildRequest_spec :
    ∀ cfg : EngineConfig,
      (∀ ip, cfg.localIPAddress = some ip →
        buildRequest cfg =
          { url := "http://" ++ ip ++ "/json", usesLocalSensor := true,
            apiKeyHeader := none, readKeyParam := cfg.key })
      ∧ (cfg.localIPAddress = none →
        buildRequest cfg =
          { url := "https://api.purpleair.com/v1/sensors" ++ "/" ++ cfg.sensor,
            usesLocalSensor := false, apiKeyHeader := cfg.apiReadKey,
            readKeyParam := cfg.key }) := by
  intro cfg
  constructor
  · intro ip hip
    simp [buildRequest, hip]
  · intro hip
    simp [buildRequest, hip]

/-- C4 amended witness: the concrete local configuration yields the local
url, no header, and the read key as parameter. -/
theorem buildRequest_spec_witness :
    buildRequest ⟨"12345", some "mykey", some "apikey", some "192.168.1.5",
        "", "", 300000, false⟩ =
      { url := "http://" ++ "192.168.1.5" ++ "/json", usesLocalSensor := true,
        apiKeyHeader := none, readKeyParam := some "mykey" } :=
  (buildRequest_spec ⟨"12345", some "mykey", some "apikey", some "192.168.1.5",
      "", "", 300000, false⟩).1 "192.168.1.5" rfl

/-- C6 counterexample: a StatusActive GET arriving when no cached reading
exists answers false without invoking update(), contradicting the claim
that the handler always triggers an opportunistic poll attempt, including
when no cached reading exists. -/
theorem statusActiveGet_counterexample :
    (statusActiveGet none 0 300000).didUpdate = false := rfl

/-- C6 amended: the StatusActive GET handler invokes update() (itself
subject to the rate guard) exactly when a cached reading exists, and
answers the freshness of the pre-handler state; with no cached reading it
answers false without triggering a poll. -/
theorem statusActiveGet_spec :
    ∀ (s : Option SensorReading) (now updateIntervalMs : Int),
      (statusActiveGet s now updateIntervalMs).didUpdate = s.isSome
      ∧ (statusActiveGet s now updateIntervalMs).answer
          = lastReadingActive s now updateIntervalMs := by
  intro s now updateIntervalMs
  cases s with
  | none => exact ⟨rfl, rfl⟩
  | some r => exact ⟨rfl, rfl⟩

/-- The state left by the try/catch body does not depend on the reporting
preference flag. -/
theorem fetchPhase_newState_flag (cfg : EngineConfig) (b : Bool) (fo : FetchOutcome)
    (parse : RawPayload → Except String SensorReading) :
    (fetchPhase { cfg with aqiInsteadOfDensity := b } fo parse).newState
      = (fetchPhase cfg fo parse).newState := by
  cases fo with
  | networkError d => rfl
  | httpError st body => rfl
  | ok payload =>
      simp only [fetchPhase, buildRequest_flag_irrel]
      split
      · rfl
      · cases parse payload <;> rfl

/-- C7: the aqiInsteadOfDensity preference never changes the stored
lastReading, and in updateHomeKit it selects only the value pushed to the
PM2_5Density characteristic (aqi when true, pm25 when false); all other
pushes are identical for both settings. -/
theorem aqiInsteadOfDensity_frame :
    (∀ (cfg : EngineConfig) (b : Bool) (s : Option SensorReading) (now : Int)
       (fo : FetchOutcome) (parse : RawPayload → Except String SensorReading),
       (update { cfg with aqiInsteadOfDensity := b } s now fo parse).newState
         = (update cfg s now fo parse).newState)
    ∧ (∀ r : SensorReading,
        lookupPush Characteristic.pm25Density (updateHomeKit (some r) true) = some r.aqi
        ∧ lookupPush Characteristic.pm25Density (updateHomeKit (some r) false)
            = some r.pm25)
    ∧ (∀ (r : SensorReading) (b1 b2 : Bool),
        nonDensityPushes (updateHomeKit (some r) b1)
          = nonDensityPushes (updateHomeKit (some r) b2)) := by
  refine ⟨?_, ?_, ?_⟩
  · intro cfg b s now fo parse
    cases s with
    | none => exact fetchPhase_newState_flag cfg b fo parse
    | some r =>
        by_cases hg : r.updateTimeMs > now - MIN_UPDATE_INTERVAL_MS
        · simp only [update, if_pos hg]
        · simp only [update, if_neg hg]
          exact fetchPhase_newState_flag cfg b fo parse
  · intro r
    constructor <;> simp [updateHomeKit, lookupPush]
  · intro r b1 b2
    obtain ⟨ut, pm, aqi, aqhr, temp, hum, voc⟩ := r
    cases temp <;> cases voc <;>
      simp [updateHomeKit, nonDensityPushes, List.filter_append, List.filter]

/-- C10: updateHomeKit pushes temperature and VOC only when the field is
truthy: a present value of exactly 0 yields no push (the previously
surfaced value is left unchanged), a present nonzero value is pushed,
while humidity and air quality are always pushed when a reading exists. -/
theorem updateHomeKit_truthy_pushes :
    (∀ (r : SensorReading) (b : Bool), r.temperature = some 0 →
       lookupPush Characteristic.currentTemperature (updateHomeKit (some r) b) = none)
    ∧ (∀ (r : SensorReading) (b : Bool), r.voc = some 0 →
       lookupPush Characteristic.vocDensity (updateHomeKit (some r) b) = none)
    ∧ (∀ (r : SensorReading) (b : Bool) (t : ℚ), r.temperature = some t → t ≠ 0 →
       lookupPush Characteristic.currentTemperature (updateHomeKit (some r) b) = some t)
    ∧ (∀ (r : SensorReading) (b : Bool) (v : ℚ), r.voc = some v → v ≠ 0 →
       lookupPush Characteristic.vocDensity (updateHomeKit (some r) b) = some v)
    ∧ (∀ (r : SensorReading) (b : Bool),
       lookupPush Characteristic.currentRelativeHumidity (updateHomeKit (some r) b)
         = some r.humidity)
    ∧ (∀ (r : SensorReading) (b : Bool),
       lookupPush Characteristic.airQuality (updateHomeKit (some r) b)
         = some r.airQualityHomekitReading) := by
  refine ⟨?_, ?_, ?_, ?_, ?_, ?_⟩
  · intro r b ht
    obtain ⟨ut, pm, aqi, aqhr, temp, hum, voc⟩ := r
    cases ht
    cases voc with
    | none => simp [updateHomeKit, lookupPush]
    | some v => by_cases hv0 : v = 0 <;> simp [updateHomeKit, lookupPush, hv0]
  · intro r b hv
    obtain ⟨ut, pm, aqi, aqhr, temp, hum, voc⟩ := r
    cases hv
    cases temp with
    | none => simp [updateHomeKit, lookupPush]
    | some t =>
        by_cases h0 : t = 0 <;> simp [updateHomeKit, lookupPush, h0]
  · intro r b t ht h0
    obtain ⟨ut, pm, aqi, aqhr, temp, hum, voc⟩ := r
    cases ht
    cases voc <;> simp [updateHomeKit, lookupPush, h0]
  · intro r b v hv h0
    obtain ⟨ut, pm, aqi, aqhr, temp, hum, voc⟩ := r
    cases hv
    cases temp with
    | none => simp [updateHomeKit, lookupPush, h0]
    | some t =>
        by_cases ht0 : t = 0 <;> simp [updateHomeKit, lookupPush, h0, ht0]
  · intro r b
    obtain ⟨ut, pm, aqi, aqhr, temp, hum, voc⟩ := r
    cases temp with
    | none => cases voc <;> simp [updateHomeKit, lookupPush]
    | some t =>
        by_cases ht0 : t = 0 <;> cases voc <;> simp [updateHomeKit, lookupPush, ht0]
  · intro r b
    obtain ⟨ut, pm, aqi, aqhr, temp, hum, voc⟩ := r
    cases temp <;> cases voc <;> simp [updateHomeKit, lookupPush]

/-- C10 witness: a concrete reading with temperature 0 and voc 0 pushes
neither, while a nonzero temperature is pushed, and humidity and air
quality are always pushed. -/
theorem updateHomeKit_truthy_pushes_witness :
    lookupPush Characteristic.currentTemperature
        (updateHomeKit (some ⟨0, 1, 2, 3, some 0, 40, some 0⟩) false) = none
    ∧ lookupPush Characteristic.vocDensity
        (updateHomeKit (some ⟨0, 1, 2, 3, some 0, 40, some 0⟩) false) = none
    ∧ lookupPush Characteristic.currentTemperature
        (updateHomeKit (some ⟨0, 1, 2, 3, some 21, 40, none⟩) false) = some 21
    ∧ lookupPush Characteristic.currentRelativeHumidity
        (updateHomeKit (some ⟨0, 1, 2, 3, some 0, 40, some 0⟩) false) = some 40 :=
  ⟨updateHomeKit_truthy_pushes.1 ⟨0, 1, 2, 3, some 0, 40, some 0⟩ false rfl,
   updateHomeKit_truthy_pushes.2.1 ⟨0, 1, 2, 3, some 0, 40, some 0⟩ false rfl,
   updateHomeKit_truthy_pushes.2.2.1 ⟨0, 1, 2, 3, some 21, 40, none⟩ false 21 rfl
     (by norm_num),
   updateHomeKit_truthy_pushes.2.2.2.2.1 ⟨0, 1, 2, 3, some 0, 40, some 0⟩ false⟩

set_option maxHeartbeats 1000000 in
/-- C8: densityToAqi maps 0 to 0 and is non-decreasing on nonnegative
inputs; it is a total function on the rationals, so every input, below the
lowest or above the highest bracket included, produces a (finite) value. -/
theorem densityToAqi_spec :
    densityToAqi 0 = 0
    ∧ ∀ p q : ℚ, 0 ≤ p → p ≤ q → densityToAqi p ≤ densityToAqi q := by
  constructor
  · norm_num [densityToAqi, aqiLinear]
  · intro p q hp hpq
    unfold densityToAqi aqiLinear
    split_ifs <;> linarith

/-- C8 witness: densityToAqi vanishes at 0 and is monotone between the
concrete inputs 10 and 600, the latter above the top bracket. -/
theorem densityToAqi_spec_witness :
    densityToAqi 0 = 0
    ∧ densityToAqi 10 ≤ densityToAqi 600 :=
  ⟨densityToAqi_spec.1,
   densityToAqi_spec.2 10 600 (by norm_num) (by norm_num)⟩

end PurpleAir
